import Mathlib

/-
A shallow embedding of the chust chess rules engine.

The definitions below are translated from the repository sources:
  src/piece.rs  (Color, PieceType, Piece, the move-offset functions)
  src/board.rs  (Transition, Board, validate_castle, make_move, validate_move,
                 is_check, is_move_possible, check_en_passant, find_piece_places,
                 read_fen, and the non-castle application path of make_pgn_move)

Rust `usize` indices become `Nat`, `i32` displacements become `Int`.
The 64-square array becomes a total function `Nat -> Piece`; reads the Rust
code would panic on (out-of-range indices) are total here, and the few
`unwrap` panics on malformed input are modelled by inert fallbacks, noted at
each site.  Mutation of `&mut self` is modelled by threading the `Board`
value; `validate_move` returns the (unchanged) board next to its result so
that its frame behaviour is a provable statement.
-/

namespace Chust

inductive Color where
  | NONE
  | BLACK
  | WHITE
deriving DecidableEq

def Color.opposite : Color → Color
  | Color.NONE => Color.NONE
  | Color.BLACK => Color.WHITE
  | Color.WHITE => Color.BLACK

inductive PieceType where
  | NONE
  | KING
  | PAWN
  | KNIGHT
  | BISHOP
  | ROOK
  | QUEEN
deriving DecidableEq

structure Piece where
  p_type : PieceType
  color : Color
  has_moved : Bool
deriving DecidableEq

def Piece.default : Piece := ⟨PieceType.NONE, Color.NONE, false⟩

def Piece.isNone (p : Piece) : Bool := decide (p.p_type = PieceType.NONE)

def Piece.isSliding (p : Piece) : Bool :=
  decide (p.p_type = PieceType.BISHOP ∨ p.p_type = PieceType.ROOK ∨ p.p_type = PieceType.QUEEN)

/-- `position_to_row_col` of src/piece.rs: 1-based (row, col) of a board
index, `none` for an index off the board. -/
def positionToRowCol (position : Nat) : Option (Nat × Nat) :=
  (List.range 8).findSome? fun i =>
    if 8 * i ≤ position ∧ position < 8 * (i + 1) then
      if (position + 1) % 8 = 0 then some (i + 1, 8)
      else some (i + 1, (position + 1) % 8)
    else none

/-- `get_moves_for_rook` of src/piece.rs. -/
def getMovesForRook (position : Nat) : List Int :=
  match positionToRowCol position with
  | none => []
  | some (row, col) =>
    ((List.range' 1 (row - 1)).map fun i => -8 * (i : Int))
      ++ ((List.range' 1 (8 - row)).map fun i => (i : Int) * 8)
      ++ ((List.range' 1 (col - 1)).map fun i => -1 * (i : Int))
      ++ ((List.range' 1 (8 - col)).map fun i => (i : Int))

/-- `get_moves_for_bishop` of src/piece.rs. -/
def getMovesForBishop (position : Nat) : List Int :=
  match positionToRowCol position with
  | none => []
  | some (row, col) =>
    ((List.range' 1 (min (9 - row) col - 1)).map fun i => 7 * (i : Int))
      ++ ((List.range' 1 (min (9 - row) (9 - col) - 1)).map fun i => 9 * (i : Int))
      ++ ((List.range' 1 (min row col - 1)).map fun i => -9 * (i : Int))
      ++ ((List.range' 1 (min row (9 - col) - 1)).map fun i => -7 * (i : Int))

/-- `get_moves_for_pawn` of src/piece.rs.  The source unwraps
`position_to_row_col`; for an off-board index (a panic there) we return no
moves. -/
def getMovesForPawn (piece : Piece) (position : Nat) : List Int :=
  let modifier : Int := if piece.color = Color.BLACK then -1 else 1
  match positionToRowCol position with
  | none => []
  | some (_, col) =>
    let pawn_moves := [8 * modifier]
    let pawn_moves :=
      if col = 1 then pawn_moves ++ [9 * modifier]
      else if col = 8 then pawn_moves ++ [7 * modifier]
      else pawn_moves ++ [7 * modifier, 9 * modifier]
    if !piece.has_moved then pawn_moves ++ [16 * modifier] else pawn_moves

/-- `get_moves` of src/piece.rs. -/
def Piece.getMoves (piece : Piece) (position : Nat) : List Int :=
  match piece.p_type with
  | PieceType.NONE => []
  | PieceType.KING =>
    [-1, 7, 8, 9, 1, -7, -8, -9] ++ (if !piece.has_moved then [-2, 2] else [])
  | PieceType.PAWN => getMovesForPawn piece position
  | PieceType.KNIGHT => [6, 15, 17, 10, -6, -15, -17, -10]
  | PieceType.BISHOP => getMovesForBishop position
  | PieceType.ROOK => getMovesForRook position
  | PieceType.QUEEN => getMovesForRook position ++ getMovesForBishop position

/-- `get_sliding_moves` of src/piece.rs. -/
def Piece.getSlidingMoves (piece : Piece) : List Int :=
  match piece.p_type with
  | PieceType.BISHOP => [9, 7, -9, -7]
  | PieceType.ROOK => [8, 1, -8, -1]
  | PieceType.QUEEN => [9, 7, -9, -7, 8, 1, -8, -1]
  | _ => []

/-- `Transition` of src/board.rs: from, to, promotion. -/
structure Transition where
  fromIdx : Nat
  toIdx : Nat
  promotion : PieceType
deriving DecidableEq

def OUT_OF_BOARD : Nat := 64

def DEFAULT_PROMOTION : PieceType := PieceType.NONE

def Transition.default : Transition := ⟨OUT_OF_BOARD, OUT_OF_BOARD, DEFAULT_PROMOTION⟩

def Transition.removePiece (fromIdx : Nat) : Transition :=
  ⟨fromIdx, OUT_OF_BOARD, DEFAULT_PROMOTION⟩

def Transition.isDefault (t : Transition) : Bool :=
  decide (t.fromIdx = OUT_OF_BOARD ∧ t.toIdx = OUT_OF_BOARD)

/-- `Board` of src/board.rs.  The `HashMap<Color, usize>` of king positions
becomes a function `Color -> Option Nat` (`get` is application, `insert` is a
pointwise update). -/
structure Board where
  squares : Nat → Piece
  color_to_move : Color
  kings_positions : Color → Option Nat
  debug : Bool
  last_transition : Transition

def Board.swapColorToMove (b : Board) : Board :=
  { b with color_to_move := b.color_to_move.opposite }

/-- `validate_castle` of src/board.rs: both pieces unmoved and every square
strictly between the two indices empty. -/
def validateCastle (b : Board) (king_pos rook_pos : Nat) : Bool :=
  if (b.squares king_pos).has_moved = false ∧ (b.squares rook_pos).has_moved = false then
    (List.range' (min king_pos rook_pos + 1) (max king_pos rook_pos - min king_pos rook_pos - 1)).all
      fun inx => (b.squares inx).isNone
  else false

/-- `make_move` of src/board.rs.  A transition to the out-of-board sentinel
only clears the source square; otherwise the destination receives the moved
piece (has_moved set, kind overridden on promotion), the source is cleared,
the king map and `last_transition` are updated, and the turn flips when
`swap_color` is set. -/
def makeMove (b : Board) (tr : Transition) (swap_color : Bool) : Board :=
  if tr.toIdx = OUT_OF_BOARD then
    { b with squares := fun i => if i = tr.fromIdx then Piece.default else b.squares i }
  else
    let moved := { b.squares tr.fromIdx with has_moved := true }
    let moved := if tr.promotion ≠ DEFAULT_PROMOTION then { moved with p_type := tr.promotion } else moved
    { squares := fun i =>
        if i = tr.fromIdx then Piece.default
        else if i = tr.toIdx then moved
        else b.squares i
      color_to_move := if swap_color then b.color_to_move.opposite else b.color_to_move
      kings_positions :=
        if moved.p_type = PieceType.KING then
          fun c => if c = moved.color then some tr.toIdx else b.kings_positions c
        else b.kings_positions
      debug := b.debug
      last_transition := ⟨tr.fromIdx, tr.toIdx, DEFAULT_PROMOTION⟩ }

/-- `check_en_passant` of src/board.rs. -/
def checkEnPassant (lt : Transition) (piece : Piece) (fromIdx toIdx : Nat) (transition : Int)
    (squares : Nat → Piece) : Except String (Option Transition) :=
  if (transition = 7 ∨ transition = -7 ∨ transition = -9 ∨ transition = 9)
      ∧ (squares toIdx).isNone then
    let check_opposite_pawn_position : Nat := if transition > 0 then toIdx - 8 else toIdx + 8
    let check_opposite_pawn_position_from : Nat := if transition > 0 then toIdx + 8 else toIdx - 8
    let c_piece := squares check_opposite_pawn_position
    if c_piece.p_type ≠ PieceType.PAWN then
      Except.ok none
    else if c_piece.color ≠ piece.color.opposite then
      Except.error "invalid en passant"
    else if lt = Transition.mk check_opposite_pawn_position_from check_opposite_pawn_position PieceType.NONE then
      Except.ok (some (Transition.removePiece check_opposite_pawn_position))
    else
      Except.ok none
  else
    Except.ok none

/-- One ray walk of the blocking loop inside `is_move_possible`
(src/board.rs): repeatedly add the step `m` to the running index; leave the
0..63 range and the walk fails (`none`); reach `to` and the walk reports
whether an earlier square of the walk was occupied.  The fuel bounds the
walk; 70 steps always suffice to leave the board. -/
def slideWalk (squares : Nat → Piece) (toIdx m : Int) : Nat → Int → Bool → Option Bool
  | 0, _, _ => none
  | fuel + 1, from_temp, blocked =>
    let ft := from_temp + m
    if ft > 63 ∨ ft < 0 then none
    else if ft = toIdx then some blocked
    else slideWalk squares toIdx m fuel ft (blocked || !(squares ft.toNat).isNone)

/-- The direction loop of the blocking check inside `is_move_possible`
(src/board.rs): try each sliding direction in order; the first walk that
reaches the destination decides (blocked means error); a walk that never
reaches it moves on to the next direction. -/
def slidingCheck (squares : Nat → Piece) (fromIdx toIdx : Int) : List Int → Except String Unit
  | [] => Except.ok ()
  | m :: ms =>
    match slideWalk squares toIdx m 70 fromIdx false with
    | some true => Except.error "your move is blocked"
    | some false => Except.ok ()
    | none => slidingCheck squares fromIdx toIdx ms

/-- `is_move_possible` of src/board.rs.  `lt` is the engine's
`last_transition`, the only piece of board state the source reads through
`self` here (inside `check_en_passant`). -/
def isMovePossible (lt : Transition) (piece : Piece) (fromIdx toIdx : Nat)
    (squares : Nat → Piece) : Except String (Option Transition) :=
  let available_moves := piece.getMoves fromIdx
  let transition : Int := (toIdx : Int) - (fromIdx : Int)
  if transition ∉ available_moves then
    Except.error "that piece cannot make moves like that!"
  else if piece.p_type = PieceType.PAWN then
    if (transition = 8 ∨ transition = -8) ∧ !(squares toIdx).isNone then
      Except.error "pawn cannot move to occupied place"
    else
      checkEnPassant lt piece fromIdx toIdx transition squares
  else if piece.isSliding then
    match slidingCheck squares (fromIdx : Int) (toIdx : Int) piece.getSlidingMoves with
    | Except.error e => Except.error e
    | Except.ok _ => Except.ok none
  else
    Except.ok none

def exceptOk (e : Except String (Option Transition)) : Bool :=
  match e with
  | Except.ok _ => true
  | Except.error _ => false

/-- `is_check` of src/board.rs: scan every square of the scratch copy for an
opposing piece that could reach the king square.  The source unwraps the
king lookup; a board with no king of the given colour (a panic there) counts
as not in check. -/
def isCheck (lt : Transition) (color : Color) (squares_copy : Nat → Piece)
    (kings_positions : Color → Option Nat) : Bool :=
  match kings_positions color with
  | none => false
  | some king_pos =>
    (List.range 64).any fun inx =>
      let p := squares_copy inx
      decide (color ≠ p.color) && !p.isNone && exceptOk (isMovePossible lt p inx king_pos squares_copy)

/-- `validate_move` of src/board.rs.  The source takes `&mut self` but never
writes it; the returned board makes that frame property statable. -/
def validateMove (b : Board) (fromIdx toIdx : Nat) : Board × Except String (Option Transition) :=
  let piece := b.squares fromIdx
  let position_to := b.squares toIdx
  if piece.isNone = true ∨ (!position_to.isNone ∧ piece.color = position_to.color)
      ∨ b.color_to_move ≠ piece.color then
    (b, Except.error "piece is none, position_to is occupied by the same color piece or it is not your move")
  else
    match isMovePossible b.last_transition piece fromIdx toIdx b.squares with
    | Except.error e => (b, Except.error e)
    | Except.ok r =>
      let additional_transition := match r with
        | some t => t
        | none => Transition.default
      let squares_copy : Nat → Piece := fun i =>
        if i = toIdx then piece else if i = fromIdx then Piece.default else b.squares i
      let kings_positions : Color → Option Nat :=
        if piece.p_type = PieceType.KING then
          fun c => if c = piece.color then some toIdx else b.kings_positions c
        else b.kings_positions
      if isCheck b.last_transition piece.color squares_copy kings_positions then
        (b, Except.error "there will be check after a move")
      else if additional_transition.isDefault then
        (b, Except.ok none)
      else
        (b, Except.ok (some additional_transition))

/-- The candidate loop of `make_pgn_move` (src/board.rs): try each candidate
transition in order; on the first that validates, apply its auxiliary
transition (turn kept) then the transition itself (turn flipped). -/
def tryTransitions (b : Board) : List Transition → Board × Except String Unit
  | [] => (b, Except.error "invalid move")
  | t :: ts =>
    match validateMove b t.fromIdx t.toIdx with
    | (b', Except.ok r) =>
      let b1 := match r with
        | some additional_transition => makeMove b' additional_transition false
        | none => b'
      (makeMove b1 t true, Except.ok ())
    | (b', Except.error _) => tryTransitions b' ts

/-- `make_pgn_move` of src/board.rs, after move-text translation: a
two-transition king-and-rook pair goes through castling validation and is
applied atomically with a single turn flip; otherwise the candidates are
tried in order. -/
def makePgnMoveTransitions (b : Board) (transitions : List Transition) : Board × Except String Unit :=
  match transitions with
  | [t0, t1] =>
    if (b.squares t0.fromIdx).p_type = PieceType.KING
        ∧ (b.squares t1.fromIdx).p_type = PieceType.ROOK then
      if validateCastle b t0.fromIdx t1.fromIdx then
        ((Board.swapColorToMove (makeMove (makeMove b t0 false) t1 false)), Except.ok ())
      else (b, Except.error "invalid castle")
    else tryTransitions b [t0, t1]
  | ts => tryTransitions b ts

def letterToInt (l : Char) : Int := (l.toNat : Int) - ('a'.toNat : Int)

/-- `find_piece_places` of src/board.rs: scan the 64 squares for pieces of
the given kind and colour, filtered by a one-character rank or file hint
when present. -/
def findPiecePlaces (b : Board) (piece_type : PieceType) (color : Color)
    (additional_info : String) : List Nat :=
  (List.range 64).filterMap fun i =>
    let p := b.squares i
    if p.p_type = piece_type ∧ p.color = color then
      match additional_info.data with
      | [info] =>
        if info.isDigit then
          let row := info.toNat - '0'.toNat
          if (row - 1) * 8 ≥ i ∧ row * 8 < i then some i else none
        else
          let column := letterToInt info
          let possible_indexes := (List.range' 1 8).map fun x => column + 8 * ((x : Int) - 1)
          if (i : Int) ∈ possible_indexes then some i else none
      | _ => some i
    else none

def pieceFromChar (c : Char) : Option PieceType :=
  if c = 'r' then some PieceType.ROOK
  else if c = 'k' then some PieceType.KING
  else if c = 'p' then some PieceType.PAWN
  else if c = 'q' then some PieceType.QUEEN
  else if c = 'b' then some PieceType.BISHOP
  else if c = 'n' then some PieceType.KNIGHT
  else none

/-- One character of `read_fen` (src/board.rs).  The state is
(rank, file, squares, king positions).  The source unwraps the piece lookup
(panicking on an unknown letter) and casts the computed index to `usize`
(panicking out of range); here an unknown letter still advances the file and
a negative index truncates to 0, both on paths a well-formed layout string
never takes. -/
def readFenStep (st : Int × Int × (Nat → Piece) × (Color → Option Nat)) (c : Char) :
    Int × Int × (Nat → Piece) × (Color → Option Nat) :=
  let rank := st.1
  let file := st.2.1
  let squares := st.2.2.1
  let kings := st.2.2.2
  if c = '/' then (rank - 1, 0, squares, kings)
  else if c.isDigit then (rank, file + ((c.toNat : Int) - ('0'.toNat : Int)), squares, kings)
  else
    match pieceFromChar c.toLower with
    | none => (rank, file + 1, squares, kings)
    | some pt =>
      let color := if c.isLower then Color.BLACK else Color.WHITE
      let inx := (rank * 8 + file).toNat
      let squares' := fun i => if i = inx then Piece.mk pt color false else squares i
      let kings' :=
        if pt = PieceType.KING then fun cc => if cc = color then some inx else kings cc
        else kings
      (rank, file + 1, squares', kings')

/-- `read_fen` of src/board.rs: reset the squares and the king map, then
fill them from the rank-8-to-rank-1 layout string.  The other fields of the
board are untouched. -/
def readFen (b : Board) (fen : String) : Board :=
  let st := fen.data.foldl readFenStep
    ((7 : Int), (0 : Int), (fun _ => Piece.default : Nat → Piece), (fun _ => none : Color → Option Nat))
  { b with squares := st.2.2.1, kings_positions := st.2.2.2 }

/-
Concrete positions used to evaluate the engine on specific inputs.
Square indexing: 0 = a1, +1 per file, +8 per rank.
-/

/-- White pawn on e4 (28), kings on e1 (4) and e8 (60), everything else
empty, white to move, no transition recorded yet. -/
def pawnSlideBoard : Board :=
  { squares := fun i =>
      if i = 28 then ⟨PieceType.PAWN, Color.WHITE, true⟩
      else if i = 4 then ⟨PieceType.KING, Color.WHITE, false⟩
      else if i = 60 then ⟨PieceType.KING, Color.BLACK, false⟩
      else Piece.default
    color_to_move := Color.WHITE
    kings_positions := fun c =>
      if c = Color.WHITE then some 4 else if c = Color.BLACK then some 60 else none
    debug := false
    last_transition := Transition.default }

/-- White queen on a1 (0), black pawn on d1 (3): the d1 square lies strictly
between a1 and h1 on the first rank. -/
def queenA1Squares : Nat → Piece := fun i =>
  if i = 0 then ⟨PieceType.QUEEN, Color.WHITE, true⟩
  else if i = 3 then ⟨PieceType.PAWN, Color.BLACK, true⟩
  else Piece.default

/-- White queen on g1 (6), black pawn on f2 (13): the g-file between g1 and
g8 is completely empty. -/
def queenG1Squares : Nat → Piece := fun i =>
  if i = 6 then ⟨PieceType.QUEEN, Color.WHITE, true⟩
  else if i = 13 then ⟨PieceType.PAWN, Color.BLACK, true⟩
  else Piece.default

/-- White pawn on e5 (36), black pawn on d5 (35) that just advanced
d7-d5 (51 to 35), kings on a1 (0) and h8 (63), white to move: the canonical
en passant position. -/
def epBoard : Board :=
  { squares := fun i =>
      if i = 36 then ⟨PieceType.PAWN, Color.WHITE, true⟩
      else if i = 35 then ⟨PieceType.PAWN, Color.BLACK, true⟩
      else if i = 0 then ⟨PieceType.KING, Color.WHITE, false⟩
      else if i = 63 then ⟨PieceType.KING, Color.BLACK, false⟩
      else Piece.default
    color_to_move := Color.WHITE
    kings_positions := fun c =>
      if c = Color.WHITE then some 0 else if c = Color.BLACK then some 63 else none
    debug := false
    last_transition := ⟨51, 35, PieceType.NONE⟩ }

/-- Black pawn on a4 (24), white pawn on b4 (25) that just advanced
b2-b4 (9 to 25), kings on h1 (7) and h8 (63), black to move: the en passant
capture a4xb3 (24 to 17) is available to black from the a-file. -/
def epEdgeBoard : Board :=
  { squares := fun i =>
      if i = 24 then ⟨PieceType.PAWN, Color.BLACK, true⟩
      else if i = 25 then ⟨PieceType.PAWN, Color.WHITE, true⟩
      else if i = 7 then ⟨PieceType.KING, Color.WHITE, false⟩
      else if i = 63 then ⟨PieceType.KING, Color.BLACK, false⟩
      else Piece.default
    color_to_move := Color.BLACK
    kings_positions := fun c =>
      if c = Color.WHITE then some 7 else if c = Color.BLACK then some 63 else none
    debug := false
    last_transition := ⟨9, 25, PieceType.NONE⟩ }

/-- White rooks on a1 (0) and h1 (7), both on rank 1, white king on e1 (4). -/
def twoRooksBoard : Board :=
  { squares := fun i =>
      if i = 0 ∨ i = 7 then ⟨PieceType.ROOK, Color.WHITE, false⟩
      else if i = 4 then ⟨PieceType.KING, Color.WHITE, false⟩
      else Piece.default
    color_to_move := Color.WHITE
    kings_positions := fun c => if c = Color.WHITE then some 4 else none
    debug := false
    last_transition := Transition.default }

/-- White pawn on a2 (8) that has not moved, black pawns on a3 (16) and
a4 (24), white king on h5 (39), black king on h8 (63), white to move:
the a2-a4 double step jumps an occupied square onto an occupied square. -/
def doubleStepBoard : Board :=
  { squares := fun i =>
      if i = 8 then ⟨PieceType.PAWN, Color.WHITE, false⟩
      else if i = 16 then ⟨PieceType.PAWN, Color.BLACK, true⟩
      else if i = 24 then ⟨PieceType.PAWN, Color.BLACK, true⟩
      else if i = 39 then ⟨PieceType.KING, Color.WHITE, false⟩
      else if i = 63 then ⟨PieceType.KING, Color.BLACK, false⟩
      else Piece.default
    color_to_move := Color.WHITE
    kings_positions := fun c =>
      if c = Color.WHITE then some 39 else if c = Color.BLACK then some 63 else none
    debug := false
    last_transition := Transition.default }

/-- An empty board carrying a stale `last_transition` of a d7-d5 double step
(51 to 35), as left behind by a previously played game. -/
def staleBoard : Board :=
  { squares := fun _ => Piece.default
    color_to_move := Color.WHITE
    kings_positions := fun _ => none
    debug := false
    last_transition := ⟨51, 35, PieceType.NONE⟩ }

/-- Layout with a black pawn on d5, a white pawn on e5 and kings on h8/a1:
reloading it makes the stale d7-d5 transition meaningful again. -/
def epFen : String := "7k/8/8/3pP3/8/8/8/K7"

/-- Statement predicate for the rook offsets at a board index: every offset
stays on the board on the same rank or file and is nonzero; the number of
offsets on each of the four rays equals the distance to the corresponding
edge; and on the a-file the -1 offset never appears. -/
def rookOffsetsSound (pos : Fin 64) : Prop :=
  (∀ m ∈ getMovesForRook pos.val,
      0 ≤ (pos.val : Int) + m ∧ (pos.val : Int) + m ≤ 63
        ∧ (((pos.val : Int) + m) / 8 = (pos.val : Int) / 8
            ∨ ((pos.val : Int) + m) % 8 = (pos.val : Int) % 8)
        ∧ (pos.val : Int) + m ≠ (pos.val : Int))
  ∧ (getMovesForRook pos.val).countP (fun m => decide (0 < m ∧ m % 8 = 0)) = 7 - pos.val / 8
  ∧ (getMovesForRook pos.val).countP (fun m => decide (m < 0 ∧ m % 8 = 0)) = pos.val / 8
  ∧ (getMovesForRook pos.val).countP (fun m => decide (0 < m ∧ ¬m % 8 = 0)) = 7 - pos.val % 8
  ∧ (getMovesForRook pos.val).countP (fun m => decide (m < 0 ∧ ¬m % 8 = 0)) = pos.val % 8
  ∧ (pos.val % 8 = 0 → (-1 : Int) ∉ getMovesForRook pos.val)

/-- Statement predicate for the bishop offsets at a board index: every
offset stays on the board, moves the same number of ranks as files and
changes the rank; the number of offsets on each of the four diagonal rays
(multiples of 7 and of 9, by sign; 63 is a multiple of 9 here, never of 7,
as the 7-ray never exceeds 49) equals the diagonal distance to the
corresponding corner of the board. -/
def bishopOffsetsSound (pos : Fin 64) : Prop :=
  (∀ m ∈ getMovesForBishop pos.val,
      0 ≤ (pos.val : Int) + m ∧ (pos.val : Int) + m ≤ 63
        ∧ (((pos.val : Int) + m) / 8 - (pos.val : Int) / 8).natAbs
            = (((pos.val : Int) + m) % 8 - (pos.val : Int) % 8).natAbs
        ∧ ((pos.val : Int) + m) / 8 ≠ (pos.val : Int) / 8)
  ∧ (getMovesForBishop pos.val).countP (fun m => decide (0 < m ∧ m % 7 = 0 ∧ ¬m % 9 = 0))
      = min (7 - pos.val / 8) (pos.val % 8)
  ∧ (getMovesForBishop pos.val).countP (fun m => decide (0 < m ∧ m % 9 = 0))
      = min (7 - pos.val / 8) (7 - pos.val % 8)
  ∧ (getMovesForBishop pos.val).countP (fun m => decide (m < 0 ∧ m % 9 = 0))
      = min (pos.val / 8) (pos.val % 8)
  ∧ (getMovesForBishop pos.val).countP (fun m => decide (m < 0 ∧ m % 7 = 0 ∧ ¬m % 9 = 0))
      = min (pos.val / 8) (7 - pos.val % 8)

/-
Theorems.
-/

/-- Claim C1.  The claim says a diagonal pawn move onto an empty square is
rejected whenever the en passant conditions fail.  The code does the
opposite: on `pawnSlideBoard` the white pawn plays e4-d5 (28 to 35) with
d5 empty, d4 (the would-be victim square) empty and no recorded transition,
yet `check_en_passant` answers `Ok(None)` and `validate_move` accepts the
move as an ordinary one. -/
theorem c1_pawn_diagonal_onto_empty_accepted :
    checkEnPassant pawnSlideBoard.last_transition ⟨PieceType.PAWN, Color.WHITE, true⟩ 28 35 7
        pawnSlideBoard.squares = Except.ok none
    ∧ (validateMove pawnSlideBoard 28 35).2 = Except.ok none := ⟨rfl, rfl⟩

/-- Claim C2.  The claim says a sliding move whose displacement is in the
offset set is rejected exactly when a square strictly between source and
destination on the connecting ray is occupied.  The blocking walk of
`is_move_possible` instead follows flat-index rays that wrap around the
board edge: the queen move a1-h1 (0 to 7, displacement 7, in the queen's
offset set) is reached in one step of the +7 walk, so it is accepted with no
blocking error although d1 (3) is occupied; and the queen move g1-g8 (6 to
62, displacement 56) is reached by the wrapping +7 walk through f2 (13), so
it is rejected as blocked although the whole g-file is empty. -/
theorem c2_sliding_block_uses_wrapping_walk :
    isMovePossible Transition.default ⟨PieceType.QUEEN, Color.WHITE, true⟩ 0 7 queenA1Squares
      = Except.ok none
    ∧ isMovePossible Transition.default ⟨PieceType.QUEEN, Color.WHITE, true⟩ 6 62 queenG1Squares
      = Except.error "your move is blocked" := ⟨rfl, rfl⟩

/-- Claim C6.  The claim says the excluded diagonal offset at each edge file
is the wrapping one for each colour.  For WHITE that holds (a white pawn on
a2 keeps 9 and loses the wrapping 7), but for BLACK the code excludes the
legal diagonal and keeps the wrapping one: a black pawn on a7 (48) gets
exactly the offsets -8, -9, -16, so it may "capture" to 39 = h5 on the far
file (39 mod 8 = 7) while the legal capture -7 to b6 is missing. -/
theorem c6_black_edge_pawn_keeps_wrapping_diagonal :
    getMovesForPawn ⟨PieceType.PAWN, Color.BLACK, false⟩ 48 = [-8, -9, -16]
    ∧ (-9 : Int) ∈ getMovesForPawn ⟨PieceType.PAWN, Color.BLACK, false⟩ 48
    ∧ ((48 : Int) + -9) % 8 = 7
    ∧ (-7 : Int) ∉ getMovesForPawn ⟨PieceType.PAWN, Color.BLACK, false⟩ 48
    ∧ (9 : Int) ∈ getMovesForPawn ⟨PieceType.PAWN, Color.WHITE, false⟩ 8
    ∧ (7 : Int) ∉ getMovesForPawn ⟨PieceType.PAWN, Color.WHITE, false⟩ 8 := by decide

/-- Claim C5.  `validate_castle` is true exactly when the pieces on the two
given squares are both unmoved and every index strictly between them holds
an empty square. -/
theorem c5_validate_castle_iff (b : Board) (king_pos rook_pos : Nat) :
    validateCastle b king_pos rook_pos = true ↔
      ((b.squares king_pos).has_moved = false ∧ (b.squares rook_pos).has_moved = false
        ∧ ∀ i : Nat, min king_pos rook_pos < i → i < max king_pos rook_pos →
            (b.squares i).isNone = true) := by
  rw [validateCastle]
  split_ifs with h
  · rw [List.all_eq_true]
    constructor
    · intro ha
      refine ⟨h.1, h.2, fun i h1 h2 => ?_⟩
      exact ha i (List.mem_range'_1.mpr (by omega))
    · intro ha i hi
      rcases List.mem_range'_1.mp hi with ⟨h1, h2⟩
      exact ha.2.2 i (by omega) (by omega)
  · constructor
    · intro hfalse
      exact absurd hfalse (by simp)
    · intro ha
      exact absurd ⟨ha.1, ha.2.1⟩ h

/-- Claim C5 witness: the castling layout R3K3 of the repository's own test,
king on 4, rook on 0. -/
theorem c5_validate_castle_iff_witness :
    validateCastle twoRooksBoard 4 0 = true ↔
      ((twoRooksBoard.squares 4).has_moved = false
        ∧ (twoRooksBoard.squares 0).has_moved = false
        ∧ ∀ i : Nat, min 4 0 < i → i < max 4 0 →
            (twoRooksBoard.squares i).isNone = true) :=
  c5_validate_castle_iff twoRooksBoard 4 0

theorem validateMove_fst (b : Board) (fromIdx toIdx : Nat) :
    (validateMove b fromIdx toIdx).1 = b := by
  rw [validateMove]
  dsimp only
  repeat' split
  all_goals rfl

/-- Claim C4.  When `validate_move` reports an error the live position is
untouched: the squares, the king map, the side to move and the recorded
last transition all keep their prior values (the check simulation works on
the scratch copy built inside `validate_move` only). -/
theorem c4_failed_validation_preserves_board (b : Board) (fromIdx toIdx : Nat) (e : String)
    (herr : (validateMove b fromIdx toIdx).2 = Except.error e) :
    (validateMove b fromIdx toIdx).1.squares = b.squares
    ∧ (validateMove b fromIdx toIdx).1.kings_positions = b.kings_positions
    ∧ (validateMove b fromIdx toIdx).1.color_to_move = b.color_to_move
    ∧ (validateMove b fromIdx toIdx).1.last_transition = b.last_transition := by
  rw [validateMove_fst]
  exact ⟨rfl, rfl, rfl, rfl⟩

/-- Claim C4 witness: moving the black king out of turn fails, and every
component of the board is unchanged. -/
theorem c4_failed_validation_preserves_board_witness :
    (validateMove pawnSlideBoard 60 59).1.squares = pawnSlideBoard.squares
    ∧ (validateMove pawnSlideBoard 60 59).1.kings_positions = pawnSlideBoard.kings_positions
    ∧ (validateMove pawnSlideBoard 60 59).1.color_to_move = pawnSlideBoard.color_to_move
    ∧ (validateMove pawnSlideBoard 60 59).1.last_transition = pawnSlideBoard.last_transition :=
  c4_failed_validation_preserves_board pawnSlideBoard 60 59
    "piece is none, position_to is occupied by the same color piece or it is not your move" rfl

/-- Claim C10.  `read_fen` leaves the side to move, the recorded last
transition and the debug flag unchanged; the squares and the king map it
produces depend only on the layout string, never on the prior board; and a
stale d7-d5 `last_transition` recorded before the reload still grants en
passant on the freshly loaded position (white pawn e5 takes d6, removing the
black pawn on d5). -/
theorem c10_read_fen_frame :
    (∀ (b : Board) (fen : String),
      (readFen b fen).color_to_move = b.color_to_move
      ∧ (readFen b fen).last_transition = b.last_transition
      ∧ (readFen b fen).debug = b.debug)
    ∧ (∀ (b1 b2 : Board) (fen : String),
      (readFen b1 fen).squares = (readFen b2 fen).squares
      ∧ (readFen b1 fen).kings_positions = (readFen b2 fen).kings_positions)
    ∧ checkEnPassant (readFen staleBoard epFen).last_transition
        ((readFen staleBoard epFen).squares 36) 36 43 7 (readFen staleBoard epFen).squares
      = Except.ok (some (Transition.removePiece 35)) :=
  ⟨fun _ _ => ⟨rfl, rfl, rfl⟩, fun _ _ _ => ⟨rfl, rfl⟩, rfl⟩

/-- Claim C10 witness: the frame part of the theorem applied to the stale
board and the en passant layout. -/
theorem c10_read_fen_frame_witness :
    (readFen staleBoard epFen).color_to_move = staleBoard.color_to_move
    ∧ (readFen staleBoard epFen).last_transition = staleBoard.last_transition
    ∧ (readFen staleBoard epFen).debug = staleBoard.debug :=
  c10_read_fen_frame.1 staleBoard epFen

/-- Claim C7.  The claim says a rank-digit hint filters the candidate scan
to that rank's matching pieces.  The code's rank test
`(row - 1) * 8 >= i && row * 8 < i` is unsatisfiable for every rank digit
at least 1, so a rank hint always yields the empty candidate list: with
white rooks on a1 (0) and h1 (7) the hint "1" returns no candidates, while
the unfiltered scan returns both. -/
theorem c7_rank_hint_returns_no_candidates :
    findPiecePlaces twoRooksBoard PieceType.ROOK Color.WHITE "1" = []
    ∧ findPiecePlaces twoRooksBoard PieceType.ROOK Color.WHITE "" = [0, 7]
    ∧ (∀ (b : Board) (info : Char) (pt : PieceType) (col : Color),
        info.isDigit = true → 1 ≤ info.toNat - '0'.toNat →
        findPiecePlaces b pt col (String.mk [info]) = []) := by
  refine ⟨rfl, rfl, ?_⟩
  intro b info pt col hd h1
  rw [findPiecePlaces, List.filterMap_eq_nil_iff]
  intro i _
  dsimp only
  split_ifs <;> first | rfl | omega

/-- Claim C7 witness: a different rank hint on the same board also returns
no candidates. -/
theorem c7_rank_hint_returns_no_candidates_witness :
    findPiecePlaces twoRooksBoard PieceType.KING Color.WHITE (String.mk ['2']) = [] :=
  c7_rank_hint_returns_no_candidates.2.2 twoRooksBoard '2' PieceType.KING Color.WHITE
    (by decide) (by decide)

/-- Claim C8.  The move offsets for the sliding pieces: the rook, bishop and
queen entries of `get_moves` are the edge-aware enumerations, and at every
board index every enumerated offset stays on the board along its own ray
with per-ray counts equal to the distance to the corresponding edge; in
particular a rook on the a-file never receives the -1 offset. -/
theorem c8_sliding_offsets_sound :
    (∀ (c : Color) (hm : Bool) (pos : Nat),
      Piece.getMoves ⟨PieceType.ROOK, c, hm⟩ pos = getMovesForRook pos)
    ∧ (∀ (c : Color) (hm : Bool) (pos : Nat),
      Piece.getMoves ⟨PieceType.BISHOP, c, hm⟩ pos = getMovesForBishop pos)
    ∧ (∀ (c : Color) (hm : Bool) (pos : Nat),
      Piece.getMoves ⟨PieceType.QUEEN, c, hm⟩ pos
        = getMovesForRook pos ++ getMovesForBishop pos)
    ∧ ∀ pos : Fin 64, rookOffsetsSound pos ∧ bishopOffsetsSound pos :=
  ⟨fun _ _ _ => rfl, fun _ _ _ => rfl, fun _ _ _ => rfl, by
    unfold rookOffsetsSound bishopOffsetsSound
    decide⟩

/-- Claim C8 witness: the geometric soundness at the a1 corner. -/
theorem c8_sliding_offsets_sound_witness :
    rookOffsetsSound (0 : Fin 64) ∧ bishopOffsetsSound (0 : Fin 64) :=
  c8_sliding_offsets_sound.2.2.2 0

theorem positionToRowCol_eval :
    ∀ n : Fin 64, positionToRowCol n.val = some (n.val / 8 + 1, n.val % 8 + 1) := by decide

theorem positionToRowCol_of_lt {n : Nat} (h : n < 64) :
    positionToRowCol n = some (n / 8 + 1, n % 8 + 1) :=
  positionToRowCol_eval ⟨n, h⟩

theorem sixteen_mem_white_pawn_moves {n : Nat} (h : n < 64) :
    (16 : Int) ∈ Piece.getMoves ⟨PieceType.PAWN, Color.WHITE, false⟩ n := by
  show (16 : Int) ∈ getMovesForPawn ⟨PieceType.PAWN, Color.WHITE, false⟩ n
  rw [getMovesForPawn, positionToRowCol_of_lt h]
  dsimp only
  split_ifs <;> simp_all

theorem neg_sixteen_mem_black_pawn_moves {n : Nat} (h : n < 64) :
    (-16 : Int) ∈ Piece.getMoves ⟨PieceType.PAWN, Color.BLACK, false⟩ n := by
  show (-16 : Int) ∈ getMovesForPawn ⟨PieceType.PAWN, Color.BLACK, false⟩ n
  rw [getMovesForPawn, positionToRowCol_of_lt h]
  dsimp only
  split_ifs <;> simp_all

/-- Claim C9.  The occupied-destination rejection for pawns fires only for
the one-step offsets 8 and -8; the double step of a not-yet-moved pawn goes
through `is_move_possible` without any occupancy or blocking test, whatever
stands on the destination or on the jumped-over square, and on
`doubleStepBoard` the full `validate_move` accepts a2-a4 although a3 and a4
both hold black pawns. -/
theorem c9_double_step_skips_occupancy_checks :
    (∀ (lt : Transition) (squares : Nat → Piece) (n : Nat), n ≤ 47 →
      isMovePossible lt ⟨PieceType.PAWN, Color.WHITE, false⟩ n (n + 16) squares
        = Except.ok none)
    ∧ (∀ (lt : Transition) (squares : Nat → Piece) (n : Nat), 16 ≤ n → n ≤ 63 →
      isMovePossible lt ⟨PieceType.PAWN, Color.BLACK, false⟩ n (n - 16) squares
        = Except.ok none)
    ∧ (validateMove doubleStepBoard 8 24).2 = Except.ok none := by
  refine ⟨?_, ?_, rfl⟩
  · intro lt squares n hn
    have h16 : ((n + 16 : Nat) : Int) - (n : Int) = 16 := by push_cast; ring
    rw [isMovePossible]
    dsimp only
    rw [h16]
    rw [if_neg (not_not_intro (sixteen_mem_white_pawn_moves (by omega)))]
    rw [if_pos rfl]
    rw [if_neg (by norm_num)]
    rw [checkEnPassant]
    rw [if_neg (by norm_num)]
  · intro lt squares n h16n hn
    have h16 : ((n - 16 : Nat) : Int) - (n : Int) = -16 := by omega
    rw [isMovePossible]
    dsimp only
    rw [h16]
    rw [if_neg (not_not_intro (neg_sixteen_mem_black_pawn_moves (by omega)))]
    rw [if_pos rfl]
    rw [if_neg (by norm_num)]
    rw [checkEnPassant]
    rw [if_neg (by norm_num)]

/-- Claim C9 witness: the double step e2-e4 on a board whose e3 and e4
squares both hold black pawns is still possible, whatever the recorded last
transition. -/
theorem c9_double_step_skips_occupancy_checks_witness :
    isMovePossible Transition.default ⟨PieceType.PAWN, Color.WHITE, false⟩ 12 28
        doubleStepBoard.squares = Except.ok none :=
  c9_double_step_skips_occupancy_checks.1 Transition.default doubleStepBoard.squares 12
    (by norm_num)

/-- Claim C3, amended.  As frozen the claim fails on the code: the pawn
offset list of a black a-file pawn lacks the legal -7 capture diagonal (the
edge-file offset bug), so the en passant capture a4xb3 is rejected with
"that piece cannot make moves like that!" although every condition of the
claim holds there (see the counterexample below).  Amended by additionally
requiring the diagonal displacement to lie in the pawn's move-offset list
(and, implicit in any accepted move, that the king-safety simulation
passes): a diagonal pawn move onto an empty square whose victim square
(one rank behind the destination, on the mover's side) holds an opposing
pawn that just completed the matching two-square advance recorded in
`last_transition` then validates successfully and yields the auxiliary
removal transition for the victim square; the auxiliary removal does not
flip the side to move, and after the orchestrator applies the candidate the
victim square is empty, the capturing pawn sits on the destination and the
side to move has flipped exactly once. -/
theorem c3_en_passant_capture
    (b : Board) (fromIdx toIdx victim victimFrom : Nat) (c : Color) (hm : Bool)
    (hpiece : b.squares fromIdx = ⟨PieceType.PAWN, c, hm⟩)
    (hturn : b.color_to_move = c)
    (hempty : (b.squares toIdx).isNone = true)
    (hdiag : (toIdx : Int) - (fromIdx : Int) = 7 ∨ (toIdx : Int) - (fromIdx : Int) = 9
      ∨ (toIdx : Int) - (fromIdx : Int) = -7 ∨ (toIdx : Int) - (fromIdx : Int) = -9)
    (hmem : ((toIdx : Int) - (fromIdx : Int)) ∈ Piece.getMoves ⟨PieceType.PAWN, c, hm⟩ fromIdx)
    (hvictim : victim = if ((toIdx : Int) - (fromIdx : Int)) > 0 then toIdx - 8 else toIdx + 8)
    (hvfrom : victimFrom = if ((toIdx : Int) - (fromIdx : Int)) > 0 then toIdx + 8 else toIdx - 8)
    (hvp : (b.squares victim).p_type = PieceType.PAWN)
    (hvc : (b.squares victim).color = c.opposite)
    (hlt : b.last_transition = ⟨victimFrom, victim, PieceType.NONE⟩)
    (hnc : isCheck b.last_transition c
      (fun i => if i = toIdx then ⟨PieceType.PAWN, c, hm⟩
        else if i = fromIdx then Piece.default else b.squares i)
      b.kings_positions = false)
    (hv64 : victim ≠ 64) (ht64 : toIdx ≠ 64)
    (hfv : fromIdx ≠ victim) (htv : toIdx ≠ victim) (hft : fromIdx ≠ toIdx) :
    validateMove b fromIdx toIdx = (b, Except.ok (some (Transition.removePiece victim)))
    ∧ (makeMove b (Transition.removePiece victim) false).color_to_move = b.color_to_move
    ∧ (makePgnMoveTransitions b [⟨fromIdx, toIdx, PieceType.NONE⟩]).2 = Except.ok ()
    ∧ (makePgnMoveTransitions b [⟨fromIdx, toIdx, PieceType.NONE⟩]).1.squares victim
      = Piece.default
    ∧ (makePgnMoveTransitions b [⟨fromIdx, toIdx, PieceType.NONE⟩]).1.squares toIdx
      = ⟨PieceType.PAWN, c, true⟩
    ∧ (makePgnMoveTransitions b [⟨fromIdx, toIdx, PieceType.NONE⟩]).1.color_to_move
      = b.color_to_move.opposite := by
  have hep : checkEnPassant b.last_transition ⟨PieceType.PAWN, c, hm⟩ fromIdx toIdx
      ((toIdx : Int) - (fromIdx : Int)) b.squares
      = Except.ok (some (Transition.removePiece victim)) := by
    rw [checkEnPassant]
    rw [if_pos ⟨by tauto, hempty⟩]
    dsimp only
    rw [← hvictim, ← hvfrom]
    rw [if_neg (by simp [hvp])]
    rw [if_neg (by simp [hvc])]
    rw [if_pos hlt]
  have himp : isMovePossible b.last_transition ⟨PieceType.PAWN, c, hm⟩ fromIdx toIdx b.squares
      = Except.ok (some (Transition.removePiece victim)) := by
    rw [isMovePossible]
    dsimp only
    rw [if_neg (not_not_intro hmem)]
    rw [if_pos rfl]
    rw [if_neg (by rintro ⟨h8 | h8, -⟩ <;> rcases hdiag with h | h | h | h <;> omega)]
    exact hep
  have hempty' : (b.squares toIdx).p_type = PieceType.NONE := by
    simpa [Piece.isNone] using hempty
  have hval : validateMove b fromIdx toIdx
      = (b, Except.ok (some (Transition.removePiece victim))) := by
    rw [validateMove]
    dsimp only
    rw [hpiece]
    rw [if_neg (by simp [Piece.isNone, hempty', hturn])]
    rw [himp]
    dsimp only
    rw [if_neg (show ¬(PieceType.PAWN = PieceType.KING) by simp)]
    rw [hnc]
    simp [Transition.removePiece, Transition.isDefault, OUT_OF_BOARD, DEFAULT_PROMOTION, hv64]
  have happ : makePgnMoveTransitions b [⟨fromIdx, toIdx, PieceType.NONE⟩]
      = (makeMove (makeMove b (Transition.removePiece victim) false)
          ⟨fromIdx, toIdx, PieceType.NONE⟩ true, Except.ok ()) := by
    show tryTransitions b [⟨fromIdx, toIdx, PieceType.NONE⟩] = _
    rw [tryTransitions]
    dsimp only
    rw [hval]
  have hb1from : (makeMove b (Transition.removePiece victim) false).squares fromIdx
      = ⟨PieceType.PAWN, c, hm⟩ := by
    rw [makeMove]
    dsimp only [Transition.removePiece]
    rw [if_pos rfl]
    dsimp only
    rw [if_neg hfv]
    exact hpiece
  have hb1v : (makeMove b (Transition.removePiece victim) false).squares victim
      = Piece.default := by
    rw [makeMove]
    dsimp only [Transition.removePiece]
    rw [if_pos rfl]
    dsimp only
    rw [if_pos rfl]
  refine ⟨hval, ?_, ?_, ?_, ?_, ?_⟩
  · rw [makeMove]
    dsimp only [Transition.removePiece]
    rw [if_pos rfl]
  · rw [happ]
  · rw [happ]
    dsimp only
    rw [makeMove]
    dsimp only
    rw [if_neg (by simpa [OUT_OF_BOARD] using ht64)]
    dsimp only
    rw [if_neg (Ne.symm hfv), if_neg (Ne.symm htv)]
    exact hb1v
  · rw [happ]
    dsimp only
    rw [makeMove]
    dsimp only
    rw [if_neg (by simpa [OUT_OF_BOARD] using ht64)]
    dsimp only
    rw [if_neg (Ne.symm hft), if_pos rfl]
    rw [if_neg (show ¬(PieceType.NONE ≠ DEFAULT_PROMOTION) by simp [DEFAULT_PROMOTION])]
    rw [hb1from]
  · rw [happ]
    dsimp only
    rw [makeMove]
    dsimp only
    rw [if_neg (by simpa [OUT_OF_BOARD] using ht64)]
    dsimp only
    rw [if_pos rfl]
    rw [makeMove]
    dsimp only [Transition.removePiece]
    rw [if_pos rfl]

/-- Claim C3 witness: the canonical en passant capture e5xd6 on `epBoard`
(white pawn 36 takes 43, removing the black pawn on 35 that just played
51 to 35). -/
theorem c3_en_passant_capture_witness :
    validateMove epBoard 36 43 = (epBoard, Except.ok (some (Transition.removePiece 35)))
    ∧ (makeMove epBoard (Transition.removePiece 35) false).color_to_move = epBoard.color_to_move
    ∧ (makePgnMoveTransitions epBoard [⟨36, 43, PieceType.NONE⟩]).2 = Except.ok ()
    ∧ (makePgnMoveTransitions epBoard [⟨36, 43, PieceType.NONE⟩]).1.squares 35 = Piece.default
    ∧ (makePgnMoveTransitions epBoard [⟨36, 43, PieceType.NONE⟩]).1.squares 43
      = ⟨PieceType.PAWN, Color.WHITE, true⟩
    ∧ (makePgnMoveTransitions epBoard [⟨36, 43, PieceType.NONE⟩]).1.color_to_move
      = epBoard.color_to_move.opposite :=
  c3_en_passant_capture epBoard 36 43 35 51 Color.WHITE true rfl rfl rfl
    (Or.inl (by norm_num)) (by decide) (by decide) (by decide) rfl rfl rfl
    (by decide) (by decide) (by decide) (by decide) (by decide) (by decide)

/-- Claim C3 counterexample: the claim as stated is false on the code.  On
`epEdgeBoard` the black pawn on a4 (24) plays the en passant capture
a4xb3 (24 to 17, displacement -7) onto the empty b3; the victim square on
the mover's side of the destination is b4 (25 = 17 + 8), it holds the
opposing white pawn, and that pawn's same-file two-square advance
b2-b4 (9 to 25) is exactly the recorded last transition; yet
`validate_move` rejects the move, because the move-offset list of a black
a-file pawn lacks the legal -7 diagonal. -/
theorem c3_en_passant_capture_counterexample :
    epEdgeBoard.squares 24 = ⟨PieceType.PAWN, Color.BLACK, true⟩
    ∧ epEdgeBoard.color_to_move = Color.BLACK
    ∧ (epEdgeBoard.squares 17).isNone = true
    ∧ (17 : Int) - (24 : Int) = -7
    ∧ (25 : Nat) = (if ((17 : Int) - (24 : Int)) > 0 then 17 - 8 else 17 + 8)
    ∧ (epEdgeBoard.squares 25).p_type = PieceType.PAWN
    ∧ (epEdgeBoard.squares 25).color = Color.BLACK.opposite
    ∧ epEdgeBoard.last_transition = ⟨9, 25, PieceType.NONE⟩
    ∧ (validateMove epEdgeBoard 24 17).2
      = Except.error "that piece cannot make moves like that!" :=
  ⟨rfl, rfl, rfl, by decide, by decide, rfl, rfl, rfl, rfl⟩

end Chust
